import Mathlib

/-!
# Verification of the ABC-StitchLogo photo/banner stitcher

Shallow embedding of `src/StitchLogo_code.py`: an EXIF orientation
corrector (`correct_orientation`), an adaptive three-band banner builder
(`build_adaptive_template`), a compositor (`process_image`) and the
batch loop of the Streamlit handler.

Modelling conventions:
* An image is its integer width and height, its (optional) EXIF data
  restricted to the single Orientation tag the program reads, and a total
  pixel function `ℤ → ℤ → Color` (values outside `[0,w) × [0,h)` are a
  modelling artifact; geometric operations only ever read in-bounds).
* Python float arithmetic is embedded as exact rational arithmetic `ℚ`,
  and Python `int(...)` as truncation toward zero (`pytrunc`).
* PIL's LANCZOS resampling kernel is abstracted to a nearest-index remap
  in `resize`: no claim concerns the colour values produced by
  resampling, only the geometry (widths and heights) of its results.
* `aspect ** (-exponent)` is real-valued exponentiation; it enters the
  embedding as an explicit rational parameter `aspectFactor` (the claims
  that touch it are settled at `aspect = 1`, where the factor is exactly
  `1` for every exponent).
-/

/-- RGB pixel value. -/
abbrev Color := ℕ × ℕ × ℕ

/-- A decoded raster image: dimensions, optional EXIF orientation data and
a total pixel map.  `getexif = none` models `img._getexif()` returning
`None`; `getexif = some o` models a present EXIF dict whose
`.get(orientation_tag)` yields `o` (`none` when the tag is absent). -/
structure PImage where
  width : ℕ
  height : ℕ
  getexif : Option (Option ℕ)
  px : ℤ → ℤ → Color

/-- Python `int(...)` on a (here: exact rational) float value truncates
toward zero. -/
def pytrunc (q : ℚ) : ℤ := if q < 0 then -⌊-q⌋ else ⌊q⌋

/-- `Image.new(mode, (w, h), color)`: a canvas filled with `color`,
carrying no EXIF data. -/
def PImage.new (w h : ℕ) (c : Color) : PImage :=
  { width := w, height := h, getexif := none, px := fun _ _ => c }

/-- `base.paste(src, (a, b))`: overwrite the rectangle
`[a, a+src.width) × [b, b+src.height)` of `base` with `src`. -/
def paste (base src : PImage) (a b : ℤ) : PImage :=
  { base with
    px := fun x y =>
      if a ≤ x ∧ x < a + (src.width : ℤ) ∧ b ≤ y ∧ y < b + (src.height : ℤ) then
        src.px (x - a) (y - b)
      else base.px x y }

/-- `img.crop((l, u, r, b))`: the sub-rectangle with corners `(l, u)` and
`(r, b)`; resulting size `(r - l) × (b - u)`. -/
def crop (img : PImage) (l u r b : ℤ) : PImage :=
  { width := (r - l).toNat, height := (b - u).toNat, getexif := img.getexif,
    px := fun x y => img.px (l + x) (u + y) }

/-- `img.resize((w, h), Image.LANCZOS)`: an image of exactly the requested
size.  The LANCZOS kernel is abstracted to a nearest-index remap of the
source pixels; no claim depends on resampled colour values. -/
def resize (img : PImage) (w h : ℤ) : PImage :=
  { width := w.toNat, height := h.toNat, getexif := img.getexif,
    px := fun x y => img.px (x * (img.width : ℤ) / max w 1) (y * (img.height : ℤ) / max h 1) }

/-- `img.rotate(180, expand=True)`: dimensions unchanged, pixels point
reflected. -/
def rotate180 (img : PImage) : PImage :=
  { width := img.width, height := img.height, getexif := img.getexif,
    px := fun x y => img.px ((img.width : ℤ) - 1 - x) ((img.height : ℤ) - 1 - y) }

/-- `img.rotate(90, expand=True)`: 90° counterclockwise, canvas expanded,
so width and height swap. -/
def rotate90 (img : PImage) : PImage :=
  { width := img.height, height := img.width, getexif := img.getexif,
    px := fun x y => img.px ((img.width : ℤ) - 1 - y) x }

/-- `img.rotate(270, expand=True)`: 270° counterclockwise, canvas
expanded, so width and height swap. -/
def rotate270 (img : PImage) : PImage :=
  { width := img.height, height := img.width, getexif := img.getexif,
    px := fun x y => img.px y ((img.height : ℤ) - 1 - x) }

/-- `correct_orientation` (src lines 9–26).  The `ExifTags.TAGS` scan that
locates the Orientation tag id is constant library data and is embedded
as the direct lookup `getexif`; the surrounding `try/except` makes the
Python function total, matching this total Lean function. -/
def correct_orientation (img : PImage) : PImage :=
  match img.getexif with
  | none => img
  | some orient =>
      if orient = some 3 then rotate180 img
      else if orient = some 6 then rotate270 img
      else if orient = some 8 then rotate90 img
      else img

/-! ## Adaptive banner builder (src lines 31–64)

The `let`-bound intermediate quantities of `build_adaptive_template` are
named top-level definitions so that theorems can speak about them. -/

/-- `scaled_w = int(orig_w * scale)` with `scale = target_height / orig_h`
(src lines 38–39). -/
def scaledW (template : PImage) (target_height : ℕ) : ℤ :=
  pytrunc ((template.width : ℚ) * ((target_height : ℚ) / (template.height : ℚ)))

/-- The height-normalized template `scaled` (src line 40). -/
def scaledImg (template : PImage) (target_height : ℕ) : PImage :=
  resize template (scaledW template target_height) (target_height : ℤ)

/-- `left_w = int(scaled_w * left_ratio)` (src line 43). -/
def leftW (template : PImage) (target_height : ℕ) (rs : ℚ × ℚ × ℚ) : ℤ :=
  pytrunc ((scaledW template target_height : ℚ) * rs.1)

/-- `right_w = int(scaled_w * right_ratio)` (src line 44). -/
def rightW (template : PImage) (target_height : ℕ) (rs : ℚ × ℚ × ℚ) : ℤ :=
  pytrunc ((scaledW template target_height : ℚ) * rs.2.2)

/-- `center_w = scaled_w - left_w - right_w` (src line 45). -/
def centerW (template : PImage) (target_height : ℕ) (rs : ℚ × ℚ × ℚ) : ℤ :=
  scaledW template target_height - leftW template target_height rs -
    rightW template target_height rs

/-- `left = scaled.crop((0, 0, left_w, target_height))` (src line 47). -/
def leftBand (template : PImage) (target_height : ℕ) (rs : ℚ × ℚ × ℚ) : PImage :=
  crop (scaledImg template target_height) 0 0 (leftW template target_height rs)
    (target_height : ℤ)

/-- `center = scaled.crop((left_w, 0, left_w + center_w, target_height))`
(src line 48). -/
def centerBand (template : PImage) (target_height : ℕ) (rs : ℚ × ℚ × ℚ) : PImage :=
  crop (scaledImg template target_height) (leftW template target_height rs) 0
    (leftW template target_height rs + centerW template target_height rs)
    (target_height : ℤ)

/-- `right = scaled.crop((left_w + center_w, 0, scaled_w, target_height))`
(src line 49). -/
def rightBand (template : PImage) (target_height : ℕ) (rs : ℚ × ℚ × ℚ) : PImage :=
  crop (scaledImg template target_height)
    (leftW template target_height rs + centerW template target_height rs) 0
    (scaledW template target_height) (target_height : ℤ)

/-- The overflow-branch intermediate canvas (src lines 52–54): left and
right bands pasted side by side onto a black `left_w + right_w` by
`target_height` canvas. -/
def overflowCanvas (template : PImage) (target_height : ℕ) (rs : ℚ × ℚ × ℚ) : PImage :=
  paste
    (paste
      (PImage.new (leftW template target_height rs + rightW template target_height rs).toNat
        target_height (0, 0, 0))
      (leftBand template target_height rs) 0 0)
    (rightBand template target_height rs) (leftW template target_height rs) 0

/-- `new_h = int(target_height * (target_width / (left_w + right_w)))`
(src line 55). -/
def newH (template : PImage) (target_width target_height : ℕ) (rs : ℚ × ℚ × ℚ) : ℤ :=
  pytrunc ((target_height : ℚ) *
    ((target_width : ℚ) /
      ((leftW template target_height rs + rightW template target_height rs : ℤ) : ℚ)))

/-- `needed = target_width - left_w - right_w` (src line 58). -/
def neededW (template : PImage) (target_width target_height : ℕ) (rs : ℚ × ℚ × ℚ) : ℤ :=
  (target_width : ℤ) - leftW template target_height rs - rightW template target_height rs

/-- `build_adaptive_template` (src lines 31–64): height-normalize the
template, slice it into three bands, then either (overflow branch,
`left_w + right_w > target_width`) drop the center band, butt left and
right together and scale the pair down to `target_width`, or (normal
branch) stretch the center band to the remaining width and paste the
three bands left-to-right onto a `target_width × target_height` canvas. -/
def build_adaptive_template (template : PImage) (target_width target_height : ℕ)
    (rs : ℚ × ℚ × ℚ) : PImage :=
  if (target_width : ℤ) < leftW template target_height rs + rightW template target_height rs then
    resize (overflowCanvas template target_height rs) (target_width : ℤ)
      (newH template target_width target_height rs)
  else
    paste
      (paste
        (paste (PImage.new target_width target_height (0, 0, 0))
          (leftBand template target_height rs) 0 0)
        (resize (centerBand template target_height rs)
          (neededW template target_width target_height rs) (target_height : ℤ))
        (leftW template target_height rs) 0)
      (rightBand template target_height rs)
      (leftW template target_height rs + neededW template target_width target_height rs) 0

/-! ## Compositor (src lines 69–89) -/

/-- `h1 = int(w * base_ratio * (aspect ** (-exponent)))` (src line 78).
`aspectFactor` stands for the real number `aspect ** (-exponent)`, passed
in as an exact rational (see the module docstring). -/
def bannerTargetHeight (w : ℕ) (base_ratio aspectFactor : ℚ) : ℤ :=
  pytrunc ((w : ℚ) * base_ratio * aspectFactor)

/-- `process_image` (src lines 69–89): build the adaptive banner at the
photo's width and the computed banner height, then stack photo above
banner on a white canvas of width `w` and height `h + banner.height`. -/
def process_image (photo template : PImage) (base_ratio aspectFactor : ℚ)
    (rs : ℚ × ℚ × ℚ) : PImage :=
  paste
    (paste
      (PImage.new photo.width
        (photo.height +
          (build_adaptive_template template photo.width
            (bannerTargetHeight photo.width base_ratio aspectFactor).toNat rs).height)
        (255, 255, 255))
      photo 0 0)
    (build_adaptive_template template photo.width
      (bannerTargetHeight photo.width base_ratio aspectFactor).toNat rs)
    0 (photo.height : ℤ)

/-! ## Batch loop of the Streamlit handler (src lines 117–159)

Only the direct-file branch of the loop (src lines 149–159) is embedded;
the in-zip branch (135–148) processes entries the same way.  An `Upload`
whose `decoded` field is `none` models a file on which
`Image.open(...).convert("RGB")` raises.  The Python loop has no per-item
exception handler, so a raise propagates out of the whole loop; this is
embedded as the `Except` short-circuit below. -/

/-- One uploaded file: its name and the result of attempting to decode
it (`none` = decode raises). -/
structure Upload where
  name : String
  decoded : Option PImage

/-- `BASE_RATIO = 0.1` (src line 97). -/
def appBaseRatio : ℚ := 1 / 10

/-- `SLICE_RATIOS = (0.37, 0.38, 1.0 - 0.37 - 0.38)` (src lines 99–102). -/
def appSliceRs : ℚ × ℚ × ℚ := (37 / 100, 38 / 100, 1 - 37 / 100 - 38 / 100)

/-- The batch loop (src lines 132, 149–159): for each upload, decode,
correct orientation, stitch, and append `stitched_<name>` to the output
archive.  A decode failure raises, which aborts the loop and discards the
archive — modelled by the error short-circuit.  `fac` supplies the
real-valued `aspect ** (-EXPONENT)` factor for a decoded photo. -/
def processAll (template : PImage) (fac : PImage → ℚ) :
    List Upload → Except String (List (String × PImage))
  | [] => .ok []
  | u :: rest =>
    match u.decoded with
    | none => .error u.name
    | some photo =>
      match processAll template fac rest with
      | .error e => .error e
      | .ok outs =>
        .ok (("stitched_" ++ u.name,
          process_image (correct_orientation photo) template appBaseRatio
            (fac photo) appSliceRs) :: outs)

/-! ## Spec-side definition and concrete test images -/

/-- Modelled from the spec (§4.2 step 1), which asserts
`scaled width = round(orig_width * target_height / orig_height)`:
rounding to nearest (half away from zero; all values in play are
nonnegative), as opposed to the truncation the source performs. -/
def specRound (q : ℚ) : ℤ := ⌊q + 1 / 2⌋

/-- A 1000 × 200 template image (the spec's §8 scenario shape). -/
def t0 : PImage := ⟨1000, 200, none, fun _ _ => (0, 0, 0)⟩

/-- A 7 × 4 template image. -/
def t74 : PImage := ⟨7, 4, none, fun _ _ => (0, 0, 0)⟩

/-- A 30 × 30 photo (aspect 1). -/
def p30 : PImage := ⟨30, 30, none, fun _ _ => (9, 9, 9)⟩

/-- A 4 × 2 image with EXIF orientation 3. -/
def i3 : PImage := ⟨4, 2, some (some 3), fun _ _ => (1, 1, 1)⟩

/-- A 4 × 2 image with EXIF orientation 6. -/
def i6 : PImage := ⟨4, 2, some (some 6), fun _ _ => (1, 1, 1)⟩

/-- A 4 × 2 image with EXIF orientation 8. -/
def i8 : PImage := ⟨4, 2, some (some 8), fun _ _ => (1, 1, 1)⟩

/-- A 4 × 2 image with the unrecognized EXIF orientation 5. -/
def i5 : PImage := ⟨4, 2, some (some 5), fun _ _ => (1, 1, 1)⟩

/-- A 4 × 2 image whose EXIF dict lacks the Orientation tag. -/
def iNoTag : PImage := ⟨4, 2, some none, fun _ _ => (1, 1, 1)⟩

/-- A 4 × 2 image with no EXIF data at all. -/
def iNoExif : PImage := ⟨4, 2, none, fun _ _ => (1, 1, 1)⟩

/-- An upload that decodes to the photo `p30`. -/
def goodUpload : Upload := ⟨"a.jpg", some p30⟩

/-- An upload on which image decoding raises. -/
def badUpload : Upload := ⟨"b.jpg", none⟩

/-! ## Helper lemmas -/

theorem pytrunc_eq_floor (q : ℚ) (hq : 0 ≤ q) : pytrunc q = ⌊q⌋ :=
  if_neg (not_lt.2 hq)

theorem bth_p30 : (bannerTargetHeight 30 (1 / 10) 1).toNat = 3 := by
  norm_num [bannerTargetHeight, pytrunc]
  decide

theorem build_p30_width : (build_adaptive_template t0 30 3 appSliceRs).width = 30 := by
  norm_num [build_adaptive_template, leftW, rightW, scaledW, pytrunc, t0, appSliceRs,
    neededW, resize, paste, PImage.new, leftBand, centerBand, rightBand, crop, scaledImg]

theorem build_p30_height : (build_adaptive_template t0 30 3 appSliceRs).height = 3 := by
  norm_num [build_adaptive_template, leftW, rightW, scaledW, pytrunc, t0, appSliceRs,
    neededW, resize, paste, PImage.new, leftBand, centerBand, rightBand, crop, scaledImg]

/-! ## Claims -/

/-- Claim C1: for every template and positive target size, the banner built
by `build_adaptive_template` has width exactly `target_width` in both
branches, and height exactly `target_height` whenever
`left_w + right_w ≤ target_width` (the normal case, including the boundary
`left_w + right_w = target_width`, where the center band gets width 0). -/
theorem build_banner_dims_exact (template : PImage) (tw th : ℕ)
    (rs : ℚ × ℚ × ℚ) (htw : 0 < tw) (hth : 0 < th) :
    (build_adaptive_template template tw th rs).width = tw ∧
    (leftW template th rs + rightW template th rs ≤ (tw : ℤ) →
      (build_adaptive_template template tw th rs).height = th) := by
  constructor
  · by_cases h : (tw : ℤ) < leftW template th rs + rightW template th rs
    · simp [build_adaptive_template, h, resize]
    · simp [build_adaptive_template, h, paste, PImage.new]
  · intro hle
    have h : ¬((tw : ℤ) < leftW template th rs + rightW template th rs) := not_lt.2 hle
    simp [build_adaptive_template, h, paste, PImage.new]

/-- Witness for C1 at the spec's §8 template shape: a 1000 × 200 template,
target 100 × 20 (normal case: band widths 37 + 25 ≤ 100). -/
theorem build_banner_dims_exact_witness :
    (build_adaptive_template t0 100 20 appSliceRs).width = 100 ∧
    (build_adaptive_template t0 100 20 appSliceRs).height = 20 := by
  have h := build_banner_dims_exact t0 100 20 appSliceRs (by decide) (by decide)
  exact ⟨h.1, h.2 (by norm_num [leftW, rightW, scaledW, pytrunc, t0, appSliceRs])⟩

/-- Claim C2 (code bug): `process_image` computes
`h1 = int(w * base_ratio * aspect ** (-exponent))` with no clamp, so for a
5 × 5 photo (aspect 1, factor exactly 1 for every exponent) at the app's
`base_ratio = 0.1` it passes banner target height 0 to the builder, not
the `max(1, floor(0.5)) = 1` the claim asserts. -/
theorem banner_height_not_clamped :
    bannerTargetHeight 5 (1 / 10) 1 = 0 ∧ (0 : ℤ) ≠ max 1 ⌊(5 : ℚ) * (1 / 10) * 1⌋ := by
  constructor
  · norm_num [bannerTargetHeight, pytrunc]
  · norm_num

/-- Claim C3: in the overflow case (`left_w + right_w > target_width`) the
build drops the center band: the result is the uniform rescale of the
side-by-side canvas of the left and right bands (width `left_w + right_w`,
height `target_height`) to width `target_width`, with resulting height
`floor(target_height * target_width / (left_w + right_w)) ≤ target_height`. -/
theorem build_overflow_branch (template : PImage) (tw th : ℕ) (rs : ℚ × ℚ × ℚ)
    (hover : (tw : ℤ) < leftW template th rs + rightW template th rs) :
    build_adaptive_template template tw th rs =
      resize (overflowCanvas template th rs) (tw : ℤ) (newH template tw th rs) ∧
    (overflowCanvas template th rs).width =
      (leftW template th rs + rightW template th rs).toNat ∧
    (overflowCanvas template th rs).height = th ∧
    (build_adaptive_template template tw th rs).width = tw ∧
    (build_adaptive_template template tw th rs).height =
      (⌊(th : ℚ) * tw / ((leftW template th rs + rightW template th rs : ℤ) : ℚ)⌋).toNat ∧
    (build_adaptive_template template tw th rs).height ≤ th := by
  have hb : build_adaptive_template template tw th rs =
      resize (overflowCanvas template th rs) (tw : ℤ) (newH template tw th rs) := by
    rw [build_adaptive_template, if_pos hover]
  have hs : (0 : ℤ) < leftW template th rs + rightW template th rs :=
    lt_of_le_of_lt (Int.ofNat_nonneg tw) hover
  have hsq : (0 : ℚ) < ((leftW template th rs + rightW template th rs : ℤ) : ℚ) := by
    exact_mod_cast hs
  have harg : (0 : ℚ) ≤ (th : ℚ) *
      ((tw : ℚ) / ((leftW template th rs + rightW template th rs : ℤ) : ℚ)) := by positivity
  have hnewH : newH template tw th rs =
      ⌊(th : ℚ) * tw / ((leftW template th rs + rightW template th rs : ℤ) : ℚ)⌋ := by
    rw [newH, pytrunc_eq_floor _ harg, mul_div_assoc]
  have hle : (th : ℚ) * ((tw : ℚ) / ((leftW template th rs + rightW template th rs : ℤ) : ℚ)) ≤
      (th : ℚ) := by
    have h1 : (tw : ℚ) / ((leftW template th rs + rightW template th rs : ℤ) : ℚ) ≤ 1 := by
      rw [div_le_one hsq]
      exact_mod_cast le_of_lt hover
    calc (th : ℚ) * ((tw : ℚ) / ((leftW template th rs + rightW template th rs : ℤ) : ℚ))
        ≤ (th : ℚ) * 1 := by
          exact mul_le_mul_of_nonneg_left h1 (by positivity)
      _ = (th : ℚ) := mul_one _
  refine ⟨hb, by simp [overflowCanvas, paste, PImage.new], by simp [overflowCanvas, paste, PImage.new],
    ?_, ?_, ?_⟩
  · rw [hb]; simp [resize]
  · rw [hb]; simp [resize, hnewH]
  · rw [hb]
    show (newH template tw th rs).toNat ≤ th
    rw [hnewH]
    rw [Int.toNat_le]
    calc ⌊(th : ℚ) * tw / ((leftW template th rs + rightW template th rs : ℤ) : ℚ)⌋
        ≤ ⌊(th : ℚ)⌋ := Int.floor_le_floor (by rw [mul_div_assoc]; exact hle)
      _ = (th : ℤ) := Int.floor_natCast th

/-- Witness for C3: template 1000 × 200 at target 50 × 20 overflows
(37 + 25 > 50); the banner comes back 50 wide and at most 20 high
(in fact 16). -/
theorem build_overflow_branch_witness :
    (build_adaptive_template t0 50 20 appSliceRs).width = 50 ∧
    (build_adaptive_template t0 50 20 appSliceRs).height ≤ 20 := by
  have h := build_overflow_branch t0 50 20 appSliceRs
    (by norm_num [leftW, rightW, scaledW, pytrunc, t0, appSliceRs])
  exact ⟨h.2.2.2.1, h.2.2.2.2.2⟩

/-- Claim C4 (code bug): the batch loop has no per-item exception handler,
so one upload that fails to decode aborts the whole batch: the two-item
batch with one valid photo and one undecodable file produces an error and
no output archive at all, while the valid photo alone would have been
processed fine. -/
theorem batch_decode_failure_aborts_all :
    processAll t0 (fun _ => 1) [goodUpload, badUpload] = Except.error "b.jpg" ∧
    (∃ outs, processAll t0 (fun _ => 1) [goodUpload] = Except.ok outs) :=
  ⟨rfl, ⟨_, rfl⟩⟩

/-- Claim C5: `correct_orientation` rotates by 180° on orientation tag 3,
by 270° on tag 6, by 90° (canvas expanded) on tag 8, and returns the image
unchanged on any other tag value, a missing tag, or absent metadata.
(The never-raises part of the claim is the totality of the function:
the source's `try/except` swallows every failure.) -/
theorem orientation_tag_mapping (img : PImage) :
    (img.getexif = some (some 3) → correct_orientation img = rotate180 img) ∧
    (img.getexif = some (some 6) → correct_orientation img = rotate270 img) ∧
    (img.getexif = some (some 8) → correct_orientation img = rotate90 img) ∧
    (∀ o : ℕ, img.getexif = some (some o) → o ≠ 3 → o ≠ 6 → o ≠ 8 →
      correct_orientation img = img) ∧
    (img.getexif = some none → correct_orientation img = img) ∧
    (img.getexif = none → correct_orientation img = img) := by
  refine ⟨fun h => ?_, fun h => ?_, fun h => ?_, fun o h h3 h6 h8 => ?_,
    fun h => ?_, fun h => ?_⟩
  · simp [correct_orientation, h]
  · simp [correct_orientation, h]
  · simp [correct_orientation, h]
  · simp [correct_orientation, h, h3, h6, h8]
  · simp [correct_orientation, h]
  · simp [correct_orientation, h]

/-- Witness for C5: one concrete image per branch of the mapping. -/
theorem orientation_tag_mapping_witness :
    correct_orientation i3 = rotate180 i3 ∧
    correct_orientation i6 = rotate270 i6 ∧
    correct_orientation i8 = rotate90 i8 ∧
    correct_orientation i5 = i5 ∧
    correct_orientation iNoTag = iNoTag ∧
    correct_orientation iNoExif = iNoExif :=
  ⟨(orientation_tag_mapping i3).1 rfl,
    (orientation_tag_mapping i6).2.1 rfl,
    (orientation_tag_mapping i8).2.2.1 rfl,
    (orientation_tag_mapping i5).2.2.2.1 5 rfl (by decide) (by decide) (by decide),
    (orientation_tag_mapping iNoTag).2.2.2.2.1 rfl,
    (orientation_tag_mapping iNoExif).2.2.2.2.2 rfl⟩

/-- Claim C9: on an image that carries no EXIF orientation tag (no
metadata at all, or a dict without the tag), `correct_orientation` is
idempotent: applying it twice is pixel-identical to applying it once. -/
theorem orientation_idempotent_no_tag (img : PImage)
    (h : img.getexif = none ∨ img.getexif = some none) :
    correct_orientation (correct_orientation img) = correct_orientation img := by
  have hfix : correct_orientation img = img := by
    rcases h with h | h <;> simp [correct_orientation, h]
  rw [hfix]
  exact hfix

/-- Witness for C9 at a tagless image of each kind. -/
theorem orientation_idempotent_no_tag_witness :
    correct_orientation (correct_orientation iNoExif) = correct_orientation iNoExif ∧
    correct_orientation (correct_orientation iNoTag) = correct_orientation iNoTag :=
  ⟨orientation_idempotent_no_tag iNoExif (Or.inl rfl),
    orientation_idempotent_no_tag iNoTag (Or.inr rfl)⟩

/-- Claim C10: the 90° and 270° rotations (tags 6 and 8) swap the image's
width and height because the canvas expands to fit; the 180° rotation
(tag 3) keeps both. -/
theorem rotation_swaps_dims (img : PImage) :
    ((img.getexif = some (some 6) ∨ img.getexif = some (some 8)) →
      (correct_orientation img).width = img.height ∧
      (correct_orientation img).height = img.width) ∧
    (img.getexif = some (some 3) →
      (correct_orientation img).width = img.width ∧
      (correct_orientation img).height = img.height) := by
  constructor
  · rintro (h | h) <;> simp [correct_orientation, h, rotate270, rotate90]
  · intro h
    simp [correct_orientation, h, rotate180]

/-- Witness for C10 on 4 × 2 images with tags 6, 8 and 3. -/
theorem rotation_swaps_dims_witness :
    (correct_orientation i6).width = i6.height ∧
    (correct_orientation i8).width = i8.height ∧
    (correct_orientation i3).width = i3.width ∧
    (correct_orientation i3).height = i3.height :=
  ⟨((rotation_swaps_dims i6).1 (Or.inl rfl)).1,
    ((rotation_swaps_dims i8).1 (Or.inr rfl)).1,
    ((rotation_swaps_dims i3).2 rfl).1,
    ((rotation_swaps_dims i3).2 rfl).2⟩

/-- Claim C6: the composite built by `process_image` has width `w` and
height `h + banner.height`, with the photo pasted at `(0, 0)`, the banner
pasted at `(0, h)`, and the white background of the canvas everywhere
outside those two rectangles. -/
theorem composite_layout (photo template : PImage) (br f : ℚ) (rs : ℚ × ℚ × ℚ) :
    (process_image photo template br f rs).width = photo.width ∧
    (process_image photo template br f rs).height =
      photo.height + (build_adaptive_template template photo.width
        (bannerTargetHeight photo.width br f).toNat rs).height ∧
    (∀ x y : ℤ, 0 ≤ x → x < (photo.width : ℤ) → 0 ≤ y → y < (photo.height : ℤ) →
      (process_image photo template br f rs).px x y = photo.px x y) ∧
    (∀ x y : ℤ, 0 ≤ x →
      x < ((build_adaptive_template template photo.width
        (bannerTargetHeight photo.width br f).toNat rs).width : ℤ) →
      0 ≤ y →
      y < ((build_adaptive_template template photo.width
        (bannerTargetHeight photo.width br f).toNat rs).height : ℤ) →
      (process_image photo template br f rs).px x ((photo.height : ℤ) + y) =
        (build_adaptive_template template photo.width
          (bannerTargetHeight photo.width br f).toNat rs).px x y) ∧
    (∀ x y : ℤ,
      ¬(0 ≤ x ∧ x < (photo.width : ℤ) ∧ 0 ≤ y ∧ y < (photo.height : ℤ)) →
      ¬(0 ≤ x ∧ x < ((build_adaptive_template template photo.width
          (bannerTargetHeight photo.width br f).toNat rs).width : ℤ) ∧
        (photo.height : ℤ) ≤ y ∧
        y < (photo.height : ℤ) + ((build_adaptive_template template photo.width
          (bannerTargetHeight photo.width br f).toNat rs).height : ℤ)) →
      (process_image photo template br f rs).px x y = (255, 255, 255)) := by
  refine ⟨by simp [process_image, paste, PImage.new],
    by simp [process_image, paste, PImage.new], ?_, ?_, ?_⟩
  · intro x y hx0 hxw hy0 hyh
    simp only [process_image, paste, PImage.new]
    rw [if_neg (by omega), if_pos (by omega)]
    simp
  · intro x y hx0 hxw hy0 hyh
    simp only [process_image, paste, PImage.new]
    rw [if_pos (by omega)]
    simp
  · intro x y h1 h2
    simp only [process_image, paste, PImage.new]
    rw [if_neg (by omega), if_neg (by omega)]

/-- Witness for C6 at the 30 × 30 photo and 1000 × 200 template: one pixel
from the photo region, one from the banner region, and one out-of-canvas
position showing the white base. -/
theorem composite_layout_witness :
    (process_image p30 t0 (1 / 10) 1 appSliceRs).px 1 1 = p30.px 1 1 ∧
    (process_image p30 t0 (1 / 10) 1 appSliceRs).px 0 ((p30.height : ℤ) + 0) =
      (build_adaptive_template t0 p30.width
        (bannerTargetHeight p30.width (1 / 10) 1).toNat appSliceRs).px 0 0 ∧
    (process_image p30 t0 (1 / 10) 1 appSliceRs).px (-1) 0 = (255, 255, 255) := by
  have h := composite_layout p30 t0 (1 / 10) 1 appSliceRs
  have hw : ((build_adaptive_template t0 p30.width
      (bannerTargetHeight p30.width (1 / 10) 1).toNat appSliceRs).width : ℤ) = 30 := by
    rw [show p30.width = 30 from rfl, bth_p30, build_p30_width]
    decide
  have hh : ((build_adaptive_template t0 p30.width
      (bannerTargetHeight p30.width (1 / 10) 1).toNat appSliceRs).height : ℤ) = 3 := by
    rw [show p30.width = 30 from rfl, bth_p30, build_p30_height]
    decide
  refine ⟨h.2.2.1 1 1 (by decide) (by decide) (by decide) (by decide),
    h.2.2.2.1 0 0 (by decide) (by rw [hw]; decide) (by decide) (by rw [hh]; decide),
    h.2.2.2.2 (-1) 0 (by decide) (by rw [hw, hh]; decide)⟩

/-- Claim C7 is false as stated: the height-normalized width is computed
with Python `int(...)`, which truncates; at a 7 × 4 template and target
height 2 the exact value is 3.5, the code produces 3, while
round-to-nearest — what the claim asserts — gives 4. -/
theorem scaled_width_rounding_counterexample :
    scaledW t74 2 ≠ specRound (((t74.width : ℚ) * 2) / (t74.height : ℚ)) := by
  norm_num [scaledW, pytrunc, specRound, t74]

/-- Claim C7 (amended): the width of the height-normalized template equals
`floor(orig_width * target_height / orig_height)` — truncation toward
zero, which on these nonnegative values is the floor, not rounding to
nearest. -/
theorem scaled_width_truncates (template : PImage) (th : ℕ)
    (hh : 0 < template.height) :
    scaledW template th = ⌊((template.width : ℚ) * th) / (template.height : ℚ)⌋ := by
  have h0 : (0 : ℚ) ≤ (template.width : ℚ) * ((th : ℚ) / (template.height : ℚ)) := by
    positivity
  rw [scaledW, pytrunc_eq_floor _ h0, mul_div_assoc]

/-- Witness for C7's amended statement at the 7 × 4 template, target
height 2. -/
theorem scaled_width_truncates_witness :
    scaledW t74 2 = ⌊((t74.width : ℚ) * ((2 : ℕ) : ℚ)) / (t74.height : ℚ)⌋ :=
  scaled_width_truncates t74 2 (by decide)

/-- Claim C8 is false as stated: `h1` is the truncation of
`w * base_ratio * aspect ** (-exponent)`, so strictly increasing
`base_ratio` need not strictly increase `h1`.  At `w = 10`, aspect factor
`1`, ratios `0.11 < 0.12` both formulas are positive (1.1 and 1.2) yet
`h1 = 1` for both. -/
theorem h1_strict_monotone_counterexample :
    (11 : ℚ) / 100 < 12 / 100 ∧
    0 < (10 : ℚ) * (11 / 100) * 1 ∧
    0 < (10 : ℚ) * (12 / 100) * 1 ∧
    ¬(bannerTargetHeight 10 (11 / 100) 1 < bannerTargetHeight 10 (12 / 100) 1) := by
  refine ⟨by norm_num, by norm_num, by norm_num, ?_⟩
  norm_num [bannerTargetHeight, pytrunc]

/-- Claim C8 (amended): for a fixed photo width and a fixed positive
aspect factor, the computed banner height `h1` is monotonically
non-decreasing in `base_ratio` (wherever the unclamped formula is
positive), and the unclamped real-valued formula itself is strictly
increasing. -/
theorem h1_monotone (w : ℕ) (f r1 r2 : ℚ)
    (hf : 0 < f) (hpos : 0 < (w : ℚ) * r1 * f) (hr : r1 ≤ r2) :
    bannerTargetHeight w r1 f ≤ bannerTargetHeight w r2 f ∧
    (r1 < r2 → (w : ℚ) * r1 * f < (w : ℚ) * r2 * f) := by
  have hw : (0 : ℚ) < (w : ℚ) := by
    rcases Nat.eq_zero_or_pos w with h0 | h0
    · rw [h0] at hpos
      norm_num at hpos
    · exact_mod_cast h0
  have hwf : (0 : ℚ) < (w : ℚ) * f := mul_pos hw hf
  have h1 : (0 : ℚ) ≤ (w : ℚ) * r1 * f := le_of_lt hpos
  have h2 : (w : ℚ) * r1 * f ≤ (w : ℚ) * r2 * f := by nlinarith
  constructor
  · rw [bannerTargetHeight, bannerTargetHeight, pytrunc_eq_floor _ h1,
      pytrunc_eq_floor _ (le_trans h1 h2)]
    exact Int.floor_le_floor h2
  · intro hlt
    nlinarith

/-- Witness for C8's amended statement: `w = 10`, factor `1`, ratios
`0.1 ≤ 0.2`. -/
theorem h1_monotone_witness :
    bannerTargetHeight 10 (1 / 10) 1 ≤ bannerTargetHeight 10 (2 / 10) 1 ∧
    ((1 : ℚ) / 10 < 2 / 10 → ((10 : ℕ) : ℚ) * (1 / 10) * 1 < ((10 : ℕ) : ℚ) * (2 / 10) * 1) :=
  h1_monotone 10 1 (1 / 10) (2 / 10) (by norm_num) (by norm_num) (by norm_num)
